import Mathlib

/-!
Shallow embedding of the homebridge-scoreboard plugin core
(src/platform.ts and src/platformAccessory.ts), together with
theorems settling the specification claims about it.

Conventions of the embedding:
 - JavaScript strings are Lean String values; charCodeAt is Char.toNat
   (the tokens involved are ASCII).
 - The device HTTP exchange is a value of type HttpResult: either a
   response with a status code and a JSON body, or a network error
   (axios throwing).
 - The HomeKit completion callback is modelled by the finite list of
   invocations a handler performs, in order; a CbCall.ok entry is an
   invocation callback(null, v) reporting success, a CbCall.err entry is
   an invocation reporting an error.  Each handler takes a flag saying
   whether the first callback invocation itself throws when invoked,
   which in the JavaScript source transfers control to the catch block.
-/

namespace Scoreboard

/-! ## JSON values and device responses -/

inductive JsonVal where
  | bool (b : Bool)
  | num (n : Int)
  deriving DecidableEq, Repr

/-- A JSON object body, as a list of key/value fields. -/
structure JsonBody where
  fields : List (String × JsonVal)
  deriving DecidableEq, Repr

/-- JavaScript property access body[key]: the value when the key is
present, otherwise none (undefined). -/
def JsonBody.get (body : JsonBody) (key : String) : Option JsonVal :=
  body.fields.lookup key

/-- Outcome of one outbound axios round trip: a device response with a
status and body, or a network-level failure (axios throws). -/
inductive HttpResult where
  | response (status : Nat) (data : JsonBody)
  | netError
  deriving DecidableEq, Repr

/-! ## sendScoreboardRequest (platformAccessory.ts lines 143-157)

The method awaits axios, rejects when axios throws, rejects when the
status differs from 200, and otherwise yields the response data. -/

def sendScoreboardRequest (r : HttpResult) : Except Unit JsonBody :=
  match r with
  | .netError => .error ()
  | .response status data => if status == 200 then .ok data else .error ()

/-! ## The axios call issued by sendScoreboardRequest (for claim C8)

Line 145 calls axios.get(this.url + endpoint) when no body is given and
axios.post(this.url + endpoint, body) otherwise.  Neither call passes a
config object, so no timeout option is set; the timeout field of the
modelled call records the timeout option passed to axios, none meaning
that the call relies on the axios default. -/

inductive HttpMethod where
  | get
  | post
  deriving DecidableEq, Repr

structure AxiosCall where
  method : HttpMethod
  url : String
  body : Option JsonBody
  timeout : Option Nat
  deriving DecidableEq, Repr

/-- platformAccessory.ts line 21: the base url of one accessory. -/
def deviceUrl (displayName : String) : String :=
  "http://" ++ displayName ++ ":5005/"

/-- The axios call constructed at platformAccessory.ts line 145. -/
def scoreboardAxiosCall (url endpoint : String) (body : Option JsonBody) :
    AxiosCall :=
  { method := if body.isNone then .get else .post
    url := url ++ endpoint
    body := body
    timeout := none }

/-! ## The four characteristic handlers (platformAccessory.ts)

Each handler is try/catch around an awaited sendScoreboardRequest
followed by a callback invocation; the catch block invokes the callback
with an error.  The handler is modelled as the list of callback
invocations it performs, given the HTTP outcome and whether the first
callback invocation throws when invoked (in which case control moves to
the catch block, which invokes the callback again). -/

inductive CbCall where
  | ok (v : Option JsonVal)
  | err
  deriving DecidableEq, Repr

/-- setOn, lines 110-119: POST setPower, then callback(null); on any
exception callback(Error(..)). -/
def setOn (r : HttpResult) (cbThrowsOnFirst : Bool) : List CbCall :=
  match sendScoreboardRequest r with
  | .ok _ => if cbThrowsOnFirst then [.ok none, .err] else [.ok none]
  | .error _ => [.err]

/-- getOn, lines 134-141: GET the root endpoint, then
callback(null, response[screen_on]); on any exception
callback(Error(..)). -/
def getOn (r : HttpResult) (cbThrowsOnFirst : Bool) : List CbCall :=
  match sendScoreboardRequest r with
  | .ok body =>
      if cbThrowsOnFirst then [.ok (body.get "screen_on"), .err]
      else [.ok (body.get "screen_on")]
  | .error _ => [.err]

/-- The ActiveIdentifier set handler, lines 50-58: POST setSport, then
callback(null); on any exception callback(Error(..)). -/
def setActiveIdentifier (r : HttpResult) (cbThrowsOnFirst : Bool) :
    List CbCall :=
  match sendScoreboardRequest r with
  | .ok _ => if cbThrowsOnFirst then [.ok none, .err] else [.ok none]
  | .error _ => [.err]

/-- The ActiveIdentifier get handler, lines 59-66: GET the root
endpoint, then callback(null, response[screen_on]) — the source reads
the screen_on field here, not the sport field; on any exception
callback(Connection error). -/
def getActiveIdentifier (r : HttpResult) (cbThrowsOnFirst : Bool) :
    List CbCall :=
  match sendScoreboardRequest r with
  | .ok body =>
      if cbThrowsOnFirst then [.ok (body.get "screen_on"), .err]
      else [.ok (body.get "screen_on")]
  | .error _ => [.err]

/-! ## Accessory construction trace (platformAccessory.ts lines 21-101,
for claim C10)

The constructor performs a fixed sequence of characteristic writes,
handler registrations and service links, and issues no HTTP request.
The values written are either strings, numbers, or named constants of
the external HAP collaborator. -/

inductive CharValue where
  | s (v : String)
  | n (v : Int)
  | ext (name : String)
  deriving DecidableEq, Repr

inductive CAction where
  | setChar (service characteristic : String) (value : CharValue)
  | onHandler (characteristic event : String)
  | addLinkedService (service : String)
  | httpRequest (endpoint : String)
  deriving DecidableEq, Repr

/-- The ordered actions of the SchmidtScoreboardAccessory constructor. -/
def constructorTrace : List CAction :=
  [ .setChar "AccessoryInformation" "Manufacturer" (.s "MarkSchmidt"),
    .setChar "AccessoryInformation" "Model" (.s "SS-001"),
    .onHandler "On" "set",
    .onHandler "On" "get",
    .setChar "Television" "ActiveIdentifier" (.n 1),
    .onHandler "ActiveIdentifier" "set",
    .onHandler "ActiveIdentifier" "get",
    .setChar "Hockey" "Identifier" (.n 0),
    .setChar "Hockey" "ConfiguredName" (.s "Hockey"),
    .setChar "Hockey" "CurrentVisibilityState" (.ext "SHOWN"),
    .setChar "Hockey" "IsConfigured" (.ext "CONFIGURED"),
    .setChar "Hockey" "InputSourceType" (.ext "HDMI"),
    .addLinkedService "Hockey",
    .setChar "Baseball" "Identifier" (.n 1),
    .setChar "Baseball" "ConfiguredName" (.s "Baseball"),
    .setChar "Baseball" "CurrentVisibilityState" (.ext "SHOWN"),
    .setChar "Baseball" "IsConfigured" (.ext "CONFIGURED"),
    .setChar "Baseball" "InputSourceType" (.ext "HDMI"),
    .addLinkedService "Baseball",
    .setChar "Clock" "Identifier" (.n 50),
    .setChar "Clock" "ConfiguredName" (.s "Clock"),
    .setChar "Clock" "CurrentVisibilityState" (.ext "SHOWN"),
    .setChar "Clock" "IsConfigured" (.ext "CONFIGURED"),
    .setChar "Clock" "InputSourceType" (.ext "HDMI"),
    .addLinkedService "Clock",
    .setChar "Television" "SleepDiscoveryMode" (.ext "ALWAYS_DISCOVERABLE") ]

/-- The actions the four handlers perform besides invoking the
completion callback: exactly one HTTP request each, and in particular no
characteristic write. -/
def setOnActions : List CAction := [.httpRequest "setPower"]

def getOnActions : List CAction := [.httpRequest ""]

def setActiveIdentifierActions : List CAction := [.httpRequest "setSport"]

def getActiveIdentifierActions : List CAction := [.httpRequest ""]

/-- Is the action an HTTP request (a device query)? -/
def CAction.isHttp : CAction → Bool
  | .httpRequest _ => true
  | _ => false

/-- Does the action write the Identifier characteristic of some input
source (renumbering it)? -/
def CAction.isIdentifierWrite : CAction → Bool
  | .setChar _ c _ => c == "Identifier"
  | _ => false

/-! ## Token resolution (platform.ts lines 61-79)

Line 63 builds the RegExp with source [a-zA-z]{8}$ — note the character
class runs from A to lowercase z, which covers ASCII codes 65 to 122 and
hence also the six punctuation characters between Z and a.  Line 66
applies the test only to strings of length exactly 8, for which the
regex test holds exactly when every character lies in that class. -/

/-- Membership in the character class of the regex [a-zA-z]: codes 97-122
from the a-z range together with codes 65-122 from the A-z range. -/
def inSyncClass (c : Char) : Bool :=
  (97 ≤ c.toNat && c.toNat ≤ 122) || (65 ≤ c.toNat && c.toNat ≤ 122)

/-- The regex test of line 63 on an arbitrary string: the pattern is
anchored at the end only, so it holds when the last 8 characters all lie
in the class. -/
def syncCodeTest (s : String) : Bool :=
  8 ≤ s.length && (s.data.drop (s.length - 8)).all inSyncClass

/-- JavaScript toUpperCase, per ASCII character: a-z map down by 32,
every other character is unchanged. -/
def jsToUpperChar (c : Char) : Char :=
  if 97 ≤ c.toNat && c.toNat ≤ 122 then Char.ofNat (c.toNat - 32) else c

/-- The decoding loop of lines 70-75: for i = 0, 2, 4, ... it appends
(charCodeAt(i) - 65) * 26 + (charCodeAt(i+1) - 65) and a dot to the
output.  The guard of line 66 only lets strings of length exactly 8
reach this loop, so the list always splits into complete pairs. -/
def decodeLoop : List Char → String
  | c0 :: c1 :: rest =>
      toString ((c0.toNat - 65) * 26 + (c1.toNat - 65)) ++ "." ++ decodeLoop rest
  | _ => ""

/-- JavaScript slice(0, -1): drop the last character. -/
def jsSliceDropLast (s : String) : String :=
  String.mk s.data.dropLast

/-- Lines 68-76: uppercase the token, run the decoding loop, drop the
trailing dot. -/
def decodeSyncCode (t : String) : String :=
  jsSliceDropLast (decodeLoop (t.data.map jsToUpperChar))

/-- Lines 66-79: a token of length exactly 8 passing the regex test is
decoded as a sync code; every other token is used unchanged as the
address. -/
def resolveToken (t : String) : String :=
  if t.length == 8 && syncCodeTest t then decodeSyncCode t else t

/-! ## Spec-side resolver (specification section 4.1, for claim C3)

This second definition follows the words of the specification, to be
compared with resolveToken above: uppercase the 8-character token,
partition it into 4 consecutive 2-character groups, compute
octet = (c0 - 65) * 26 + (c1 - 65) per group, and join the 4 integers
with a dot. -/

/-- Is the character one of the 26 uppercase or 26 lowercase ASCII
letters? -/
def isAsciiAlpha (c : Char) : Bool :=
  (65 ≤ c.toNat && c.toNat ≤ 90) || (97 ≤ c.toNat && c.toNat ≤ 122)

def specUppercaseChar (c : Char) : Char :=
  if 97 ≤ c.toNat && c.toNat ≤ 122 then Char.ofNat (c.toNat - 32) else c

def specOctet (c0 c1 : Char) : Nat :=
  (c0.toNat - 65) * 26 + (c1.toNat - 65)

def specResolveSync (t : String) : String :=
  match t.data.map specUppercaseChar with
  | [a, b, c, d, e, f, g, h] =>
      toString (specOctet a b) ++ "." ++ toString (specOctet c d) ++ "." ++
        toString (specOctet e f) ++ "." ++ toString (specOctet g h)
  | _ => t

/-! ## Device discovery (platform.ts lines 54-131)

discoverDevices iterates the configured tokens: it resolves each token
to an address, derives the accessory UUID through the uuid generator of
the external api collaborator (a parameter gen here), looks the UUID up
in the list of accessories restored from cache, and either reuses the
restored record (no registration) or creates a record with the address
as displayName and device context and registers it.  The entire loop sits
inside one try/catch whose catch block is empty, so the first exception
(modelled: a registration call that fails, registerFails) silently ends
the whole pass; registrations already performed stand. -/

structure AccessoryRecord where
  displayName : String
  uuid : String
  contextDevice : Option String
  deriving DecidableEq, Repr

/-- Lines 110-114: a new accessory gets the resolved address as its
display name and as its device context. -/
def mkNewAccessory (ip uuid : String) : AccessoryRecord :=
  { displayName := ip, uuid := uuid, contextDevice := some ip }

def discoverLoop (gen : String → String) (registerFails : String → Bool)
    (accessories : List AccessoryRecord) :
    List String → List AccessoryRecord → List AccessoryRecord
  | [], registered => registered
  | token :: rest, registered =>
    let ip := resolveToken token
    let uuid := gen ip
    match accessories.find? (fun a => a.uuid == uuid) with
    | some _ => discoverLoop gen registerFails accessories rest registered
    | none =>
        if registerFails uuid then registered
        else
          discoverLoop gen registerFails accessories rest
            (registered ++ [mkNewAccessory ip uuid])

/-- The whole discovery pass: the list of accessory records passed to
registerPlatformAccessories, in order, when the pass runs over the given
tokens against the given restored-accessory cache. -/
def discoverDevices (gen : String → String) (registerFails : String → Bool)
    (accessories : List AccessoryRecord) (tokens : List String) :
    List AccessoryRecord :=
  discoverLoop gen registerFails accessories tokens []

end Scoreboard

open Scoreboard

/-! ## Helper lemmas -/

/-- An ASCII letter lies in the character class of the sync-code regex. -/
theorem alpha_inSyncClass {c : Char} (h : isAsciiAlpha c = true) :
    inSyncClass c = true := by
  simp [isAsciiAlpha, inSyncClass] at *
  omega

/-- A list of length 8 is a literal list of 8 elements. -/
theorem len8_explicit {α : Type} (l : List α) (h : l.length = 8) :
    ∃ a b c d e f g i, l = [a, b, c, d, e, f, g, i] := by
  match l with
  | [a, b, c, d, e, f, g, i] => exact ⟨a, b, c, d, e, f, g, i, rfl⟩
  | [] | [_] | [_,_] | [_,_,_] | [_,_,_,_] | [_,_,_,_,_] | [_,_,_,_,_,_]
  | [_,_,_,_,_,_,_] => simp at h
  | _ :: _ :: _ :: _ :: _ :: _ :: _ :: _ :: _ :: _ => simp at h

/-- Dropping the final character of the dot-terminated concatenation
produced by the decoding loop yields the dot-joined concatenation. -/
theorem jsSliceDropLast_join4 (s1 s2 s3 s4 : String) :
    jsSliceDropLast (s1 ++ "." ++ (s2 ++ "." ++ (s3 ++ "." ++ (s4 ++ "." ++ "")))) =
      s1 ++ "." ++ s2 ++ "." ++ s3 ++ "." ++ s4 := by
  show String.mk (List.dropLast
      (s1.data ++ ['.'] ++ (s2.data ++ ['.'] ++ (s3.data ++ ['.'] ++
        (s4.data ++ ['.'] ++ []))))) =
    String.mk (s1.data ++ ['.'] ++ s2.data ++ ['.'] ++ s3.data ++ ['.'] ++ s4.data)
  rw [List.append_nil,
    show s1.data ++ ['.'] ++ (s2.data ++ ['.'] ++ (s3.data ++ ['.'] ++ (s4.data ++ ['.'])))
        = (s1.data ++ ['.'] ++ s2.data ++ ['.'] ++ s3.data ++ ['.'] ++ s4.data) ++ ['.'] by
      simp [List.append_assoc]]
  rw [List.dropLast_concat]

/-- On a token of length 8 consisting only of ASCII letters, the source
resolver agrees with the spec-side resolver. -/
theorem resolveToken_allAlpha (t : String) (h8 : t.length = 8)
    (halpha : t.data.all isAsciiAlpha = true) :
    resolveToken t = specResolveSync t := by
  obtain ⟨cs⟩ := t
  obtain ⟨a, b, c, d, e, f, g, i, rfl⟩ := len8_explicit cs h8
  simp only [List.all_cons, List.all_nil, Bool.and_true, Bool.and_eq_true] at halpha
  obtain ⟨ha, hb, hc, hd, he, hf, hg, hi⟩ := halpha
  have hcond : ((String.mk [a, b, c, d, e, f, g, i]).length == 8 &&
      syncCodeTest (String.mk [a, b, c, d, e, f, g, i])) = true := by
    simp [syncCodeTest, alpha_inSyncClass ha, alpha_inSyncClass hb,
      alpha_inSyncClass hc, alpha_inSyncClass hd, alpha_inSyncClass he,
      alpha_inSyncClass hf, alpha_inSyncClass hg, alpha_inSyncClass hi]
  simp only [resolveToken, hcond, if_true]
  simp only [decodeSyncCode, List.map_cons, List.map_nil, decodeLoop]
  rw [jsSliceDropLast_join4]
  simp [specResolveSync, jsToUpperChar, specUppercaseChar, specOctet]

/-! ## Claim theorems -/

/-- Claim C1: the spec says the get-active-input handler returns the
sport field of the parsed body, so that a device answering with
screen_on true and sport 1 yields get power = true and get active
input = 1.  Evaluating the embedded handlers on exactly that body shows
that get power does complete with true, but the ActiveIdentifier get
handler completes with the screen_on value true instead of the sport
value 1, even though the sport field is present in the body: the code
reads the wrong field. -/
theorem claim_C1_eval :
    getOn (.response 200 ⟨[("screen_on", .bool true), ("sport", .num 1)]⟩) false
        = [.ok (some (.bool true))] ∧
    getActiveIdentifier (.response 200 ⟨[("screen_on", .bool true), ("sport", .num 1)]⟩) false
        = [.ok (some (.bool true))] ∧
    getActiveIdentifier (.response 200 ⟨[("screen_on", .bool true), ("sport", .num 1)]⟩) false
        ≠ [.ok (some (.num 1))] ∧
    JsonBody.get ⟨[("screen_on", .bool true), ("sport", .num 1)]⟩ "sport"
        = some (.num 1) := by
  decide

/-- Claim C2: the spec requires a per-token failure to leave the
remaining tokens processed and registered.  Evaluating the discovery
pass on the tokens AAAAAAAA, X, BBBBBBBB, with an empty restored cache
and a registration call that fails for the literal address X, shows that
only AAAAAAAA gets registered: BBBBBBBB is a valid sync code resolving
to 27.27.27.27, yet the blanket try/catch around the whole loop ends the
pass at the failure, so BBBBBBBB is never reconciled or registered. -/
theorem claim_C2_eval :
    resolveToken "BBBBBBBB" = "27.27.27.27" ∧
    (discoverDevices (fun s => s) (fun u => u == "X") []
        ["AAAAAAAA", "X", "BBBBBBBB"]).map (fun a => a.uuid) = ["0.0.0.0"] := by
  decide

/-- Claim C3: on every token of length 8 consisting only of ASCII
letters, the source resolver uppercases the token, splits it into 4
consecutive 2-character groups, turns each group into
(c0 - 65) * 26 + (c1 - 65) and joins the 4 integers with dots, which is
the spec-side resolver; in particular AAAAAAAA resolves to 0.0.0.0 and
ABCDEFGH resolves to 1.55.109.163. -/
theorem claim_C3_resolve :
    (∀ t : String, t.length = 8 → t.data.all isAsciiAlpha = true →
      resolveToken t = specResolveSync t) ∧
    resolveToken "AAAAAAAA" = "0.0.0.0" ∧
    resolveToken "ABCDEFGH" = "1.55.109.163" :=
  ⟨fun t h8 ha => resolveToken_allAlpha t h8 ha, by decide, by decide⟩

/-- Witness for claim C3 at the concrete token ABCDEFGH. -/
theorem claim_C3_witness :
    ("ABCDEFGH".length = 8 ∧ "ABCDEFGH".data.all isAsciiAlpha = true) ∧
    resolveToken "ABCDEFGH" = specResolveSync "ABCDEFGH" ∧
    specResolveSync "ABCDEFGH" = "1.55.109.163" :=
  ⟨⟨by decide, by decide⟩, claim_C3_resolve.1 "ABCDEFGH" (by decide) (by decide),
    by decide⟩

/-- Counterexample to claim C4 as stated: the 8-letter code LOLOLOLO has
every pair decoding to 300, above 255, yet resolution does not fail: it
returns the dotted string 300.300.300.300 containing the out-of-range
values (and in particular does not return the token unchanged). -/
theorem claim_C4_counterexample :
    resolveToken "LOLOLOLO" = "300.300.300.300" ∧
    resolveToken "LOLOLOLO" ≠ "LOLOLOLO" := by decide

/-- Claim C4 amended: for every 8-letter code whose first pair decodes
to an octet above 255, resolution does not fail and does not clamp: it
returns the dot-joined string of all four decoded values, including the
out-of-range one.  The code has no DecodeError and no range check. -/
theorem claim_C4_amended (a b c d e f g i : Char)
    (ha : isAsciiAlpha a = true) (hb : isAsciiAlpha b = true)
    (hc : isAsciiAlpha c = true) (hd : isAsciiAlpha d = true)
    (he : isAsciiAlpha e = true) (hf : isAsciiAlpha f = true)
    (hg : isAsciiAlpha g = true) (hi : isAsciiAlpha i = true)
    (hoct : 255 < specOctet (specUppercaseChar a) (specUppercaseChar b)) :
    255 < specOctet (specUppercaseChar a) (specUppercaseChar b) ∧
    resolveToken (String.mk [a, b, c, d, e, f, g, i]) =
      toString (specOctet (specUppercaseChar a) (specUppercaseChar b)) ++ "." ++
      toString (specOctet (specUppercaseChar c) (specUppercaseChar d)) ++ "." ++
      toString (specOctet (specUppercaseChar e) (specUppercaseChar f)) ++ "." ++
      toString (specOctet (specUppercaseChar g) (specUppercaseChar i)) := by
  refine ⟨hoct, ?_⟩
  have h := resolveToken_allAlpha (String.mk [a, b, c, d, e, f, g, i]) rfl
    (by simp [ha, hb, hc, hd, he, hf, hg, hi])
  rw [h]
  simp [specResolveSync]

/-- Witness for the amended claim C4 at the concrete token LOAAAAAA,
whose first pair decodes to 300. -/
theorem claim_C4_witness :
    (isAsciiAlpha 'L' = true ∧ isAsciiAlpha 'O' = true ∧
      isAsciiAlpha 'A' = true ∧
      255 < specOctet (specUppercaseChar 'L') (specUppercaseChar 'O')) ∧
    (255 < specOctet (specUppercaseChar 'L') (specUppercaseChar 'O') ∧
      resolveToken (String.mk ['L', 'O', 'A', 'A', 'A', 'A', 'A', 'A']) =
        toString (specOctet (specUppercaseChar 'L') (specUppercaseChar 'O')) ++ "." ++
        toString (specOctet (specUppercaseChar 'A') (specUppercaseChar 'A')) ++ "." ++
        toString (specOctet (specUppercaseChar 'A') (specUppercaseChar 'A')) ++ "." ++
        toString (specOctet (specUppercaseChar 'A') (specUppercaseChar 'A'))) ∧
    resolveToken "LOAAAAAA" = "300.0.0.0" :=
  ⟨⟨by decide, by decide, by decide, by decide⟩,
    claim_C4_amended 'L' 'O' 'A' 'A' 'A' 'A' 'A' 'A' (by decide) (by decide)
      (by decide) (by decide) (by decide) (by decide) (by decide) (by decide)
      (by decide),
    by decide⟩

/-- Claim C5: the spec says a token of length 8 whose characters are not
all alphabetic is returned unchanged and never sync-decoded.  The token
of 8 left-bracket characters is such a token: its length is 8 and none
of its characters is a letter, yet the regex class of line 63 runs from
A to lowercase z and so admits it, and the code sync-decodes it to
702.702.702.702 instead of returning it unchanged. -/
theorem claim_C5_eval :
    ("[[[[[[[[".length = 8 ∧ "[[[[[[[[".data.all isAsciiAlpha = false) ∧
    resolveToken "[[[[[[[[" = "702.702.702.702" ∧
    resolveToken "[[[[[[[[" ≠ "[[[[[[[[" := by decide

/-- Claim C6: reconciliation of a single address against a cache holding
its record registers nothing, as the spec says; but the registration
uniqueness over a process lifetime fails: a discovery pass over the same
valid token twice, with an empty restored cache, registers two records
with the identical identity 0.0.0.0, because newly registered records
are never added to the list the pass looks identities up in. -/
theorem claim_C6_eval :
    discoverDevices (fun s => s) (fun _ => false)
        [⟨"0.0.0.0", "0.0.0.0", some "0.0.0.0"⟩] ["AAAAAAAA"] = [] ∧
    (discoverDevices (fun s => s) (fun _ => false) [] ["AAAAAAAA", "AAAAAAAA"]).map
        (fun a => a.uuid) = ["0.0.0.0", "0.0.0.0"] ∧
    ¬ ((discoverDevices (fun s => s) (fun _ => false) [] ["AAAAAAAA", "AAAAAAAA"]).map
        (fun a => a.uuid)).Nodup := by decide

/-- Counterexample to claim C7 as stated: when the HTTP call succeeds
and the success invocation of the completion callback itself throws, the
catch block of the handler invokes the callback a second time, with an
error: the callback is invoked twice, once with success and once with an
error, not exactly once. -/
theorem claim_C7_counterexample :
    setOn (.response 200 ⟨[]⟩) true = [.ok none, .err] ∧
    (setOn (.response 200 ⟨[]⟩) true).length ≠ 1 := by decide

/-- Claim C7 amended: for every HTTP outcome, each of the four handlers
invokes its completion callback exactly once provided the callback
itself does not throw; when the callback throws on its success
invocation, the handler invokes it a second time with an error. -/
theorem claim_C7_amended :
    (∀ r : HttpResult,
      (setOn r false).length = 1 ∧ (getOn r false).length = 1 ∧
      (setActiveIdentifier r false).length = 1 ∧
      (getActiveIdentifier r false).length = 1) ∧
    (∀ body : JsonBody, setOn (.response 200 body) true = [.ok none, .err]) := by
  constructor
  · intro r
    cases r with
    | netError =>
        simp [setOn, getOn, setActiveIdentifier, getActiveIdentifier,
          sendScoreboardRequest]
    | response status data =>
        cases h : (status == 200) <;>
          simp [setOn, getOn, setActiveIdentifier, getActiveIdentifier,
            sendScoreboardRequest, h]
  · intro body
    simp [setOn, sendScoreboardRequest]

/-- Witness for the amended claim C7 at a concrete HTTP outcome. -/
theorem claim_C7_witness :
    (setOn HttpResult.netError false).length = 1 :=
  (claim_C7_amended.1 HttpResult.netError).1

/-- Counterexample to claim C8 as stated: the axios call issued by the
get-power operation against the device at 0.0.0.0 carries no timeout
option at all, so no explicit bound is configured. -/
theorem claim_C8_counterexample :
    (scoreboardAxiosCall (deviceUrl "0.0.0.0") "" none).timeout = none ∧
    (scoreboardAxiosCall (deviceUrl "0.0.0.0") "" none).timeout.isSome = false := by
  decide

/-- Claim C8 amended: no bridge HTTP operation configures a timeout: the
axios calls of sendScoreboardRequest pass no timeout option for any url,
endpoint or body, so a device that never responds is bounded only by
whatever default the HTTP stack applies, which for axios is unbounded. -/
theorem claim_C8_amended (url endpoint : String) (body : Option JsonBody) :
    (scoreboardAxiosCall url endpoint body).timeout = none := rfl

/-- Witness for the amended claim C8 at the concrete setPower call. -/
theorem claim_C8_witness :
    (scoreboardAxiosCall (deviceUrl "0.0.0.0") "setPower"
      (some ⟨[("screen_on", .bool true)]⟩)).timeout = none :=
  claim_C8_amended (deviceUrl "0.0.0.0") "setPower"
    (some ⟨[("screen_on", .bool true)]⟩)

/-- Counterexample to claim C9 as stated: a 200 response whose body
lacks the screen_on field makes the get-power handler complete with
success carrying the absent value, not with a failure. -/
theorem claim_C9_counterexample :
    getOn (.response 200 ⟨[]⟩) false = [.ok none] ∧
    getOn (.response 200 ⟨[]⟩) false ≠ [.err] := by decide

/-- Claim C9 amended: for every 200 response whose body has no screen_on
field, both get handlers complete with success carrying the absent
value; no ProtocolError exists in the code, which fails only when the
request itself rejects. -/
theorem claim_C9_amended (body : JsonBody) (h : body.get "screen_on" = none) :
    getOn (.response 200 body) false = [.ok none] ∧
    getActiveIdentifier (.response 200 body) false = [.ok none] := by
  simp [getOn, getActiveIdentifier, sendScoreboardRequest, h]

/-- Witness for the amended claim C9 at the empty body. -/
theorem claim_C9_witness :
    JsonBody.get ⟨[]⟩ "screen_on" = none ∧
    (getOn (.response 200 ⟨[]⟩) false = [.ok none] ∧
      getActiveIdentifier (.response 200 ⟨[]⟩) false = [.ok none]) :=
  ⟨by decide, claim_C9_amended ⟨[]⟩ (by decide)⟩

/-- Claim C10: the constructor trace writes the Identifier values 0, 1
and 50 to the Hockey, Baseball and Clock input sources, initializes the
ActiveIdentifier characteristic to 1, performs no HTTP request itself
(so the initialization precedes any device query), and none of the four
handler operations ever writes an Identifier characteristic. -/
theorem claim_C10_input_sources :
    CAction.setChar "Hockey" "Identifier" (.n 0) ∈ constructorTrace ∧
    CAction.setChar "Baseball" "Identifier" (.n 1) ∈ constructorTrace ∧
    CAction.setChar "Clock" "Identifier" (.n 50) ∈ constructorTrace ∧
    CAction.setChar "Television" "ActiveIdentifier" (.n 1) ∈ constructorTrace ∧
    constructorTrace.all (fun a => !a.isHttp) = true ∧
    (setOnActions ++ getOnActions ++ setActiveIdentifierActions ++
      getActiveIdentifierActions).all (fun a => !a.isIdentifierWrite) = true := by
  decide
